import Mathlib

/-!
Verification of the BSCF build system (`src/main.cpp`, `src/util.h`,
`src/compiler.h`, `src/builtins.h`) against its natural-language
specification.  The C++ sources are shallowly embedded below: pure
functions become Lean functions, the file system and process execution
are abstracted into an explicit environment record, and the build
executor's mutable `built`/`failed` vectors become an explicit state
record threaded through the step functions.  The host platform is
modelled as Linux (`_WIN32` undefined), matching the `#else` branches of
the source.
-/

namespace BSCF

/-- Target kinds, from `enum class TargetType` in `main.cpp`. -/
inductive TargetType where
  | EXEC
  | SLIB
  | DLIB
  | INTR
deriving DecidableEq, Repr

/-- Toolchain families, from `enum class CompilerType` in `compiler.h`. -/
inductive CompilerType where
  | GNU
  | CLANG
  | MSVC
  | UNKNOWN
deriving DecidableEq, Repr

/-- Toolchain descriptor, from `struct Compiler` in `compiler.h`. -/
structure Compiler where
  type : CompilerType
  cc : String
  cxx : String
  link : String
  ar : String
deriving DecidableEq, Repr

/-- `defaultGNUCompiler()` from `compiler.h`. -/
def defaultGNUCompiler : Compiler :=
  ⟨CompilerType.GNU, "gcc", "g++", "g++", "ar"⟩

/-- A build target, from `struct Target` in `main.cpp`.  Paths are
modelled as plain strings (the `std::path` values the program builds are
only ever concatenated and printed). -/
structure Target where
  type : TargetType
  name : String
  path : String
  sources : List String
  dependencies : List String
  prebuildcmds : List String
  postbuildcmds : List String
  defines : List String
  libs : List String
  includes : List String
  builtin : Bool := false
deriving DecidableEq, Repr

/-- `std::path::operator/` for the relative right-hand operands used by
the program: appends with a separator, except onto an empty path. -/
def pathApp (p q : String) : String :=
  if p = "" then q else p ++ "/" ++ q

/-- Split a character list at every occurrence of `sep` (the separator
is dropped; `n` separators yield `n + 1` pieces, empty pieces kept). -/
def splitOnChar (sep : Char) : List Char → List (List Char)
  | [] => [[]]
  | c :: rest =>
    match splitOnChar sep rest with
    | [] => if c = sep then [[], []] else [[c]]
    | g :: gs => if c = sep then [] :: g :: gs else (c :: g) :: gs

/-- Last path component, used by `extensionOf`. -/
def fileName (p : String) : String :=
  String.mk ((splitOnChar ('/') p.data).getLastD [])

/-- `std::path::extension()` on the file names the program handles: the
suffix of the last component starting at its last dot, where a dot in
first position (hidden files) and the special names `.`/`..` yield no
extension. -/
def extensionOf (p : String) : String :=
  let f := fileName p
  if f = "." ∨ f = ".." then ""
  else
    match splitOnChar ('.') f.data with
    | [] => ""
    | [_] => ""
    | [[], _] => ""
    | parts => String.mk ('.' :: parts.getLastD [])

/-- The `replace` helper of `util.h` as the program uses it: both call
sites substitute a single-character pattern (`"/"` and `"\\"`) by a
single-character replacement, i.e. a character substitution. -/
def replaceChar (pat sub : Char) (s : String) : String :=
  String.mk (s.data.map fun c => if c = pat then sub else c)

/-- `std::filesystem::relative(source, base)` for the lexical case the
program relies on (every source path is formed as `base / rel`): strips
the leading `base ++ "/"`. -/
def relativeTo (p base : String) : String :=
  if (base.data ++ ['/']).isPrefixOf p.data then String.mk (p.data.drop (base.data.length + 1))
  else p

/-- The `for (Target& target : targets) { if (target.name == name) { ...; break; } }`
mutation pattern shared by the `DEPEND`, `PREBUILD`, `POSTBUILD`,
`DEFINE`, `LIB`, `INCDIR` and `ALLOWSKIP` cases of `bscfInclude`:
update the first target with the given name, leave everything else
unchanged. -/
def updateFirst (ts : List Target) (name : String) (f : Target → Target) : List Target :=
  match ts with
  | [] => []
  | t :: rest => if t.name = name then f t :: rest else t :: updateFirst rest name f

/-- The `DEPEND targetName dependencyName` case of `bscfInclude`. -/
def applyDepend (ts : List Target) (targetName dependencyName : String) : List Target :=
  updateFirst ts targetName
    (fun t => { t with dependencies := t.dependencies ++ [dependencyName] })

/-- The `PREBUILD targetName cmd` case of `bscfInclude` (`cmd` is the
rest of the line, as read by `std::getline`). -/
def applyPrebuild (ts : List Target) (targetName cmd : String) : List Target :=
  updateFirst ts targetName (fun t => { t with prebuildcmds := t.prebuildcmds ++ [cmd] })

/-- The `POSTBUILD targetName cmd` case of `bscfInclude`. -/
def applyPostbuild (ts : List Target) (targetName cmd : String) : List Target :=
  updateFirst ts targetName (fun t => { t with postbuildcmds := t.postbuildcmds ++ [cmd] })

/-- The `DEFINE targetName macro` case of `bscfInclude` (`macro` is the
rest of the line with surrounding spaces already stripped). -/
def applyDefine (ts : List Target) (targetName macro_ : String) : List Target :=
  updateFirst ts targetName (fun t => { t with defines := t.defines ++ [macro_] })

/-- The `LIB targetName lib` case of `bscfInclude`. -/
def applyLib (ts : List Target) (targetName lib : String) : List Target :=
  updateFirst ts targetName (fun t => { t with libs := t.libs ++ [lib] })

/-- The `INCDIR targetName incdir` case of `bscfInclude`; `parseDir` is
the directory of the configuration file being parsed (the local `path`),
since the case pushes `(path / incdir).string()`. -/
def applyIncdir (parseDir : String) (ts : List Target) (targetName incdir : String) : List Target :=
  updateFirst ts targetName
    (fun t => { t with includes := t.includes ++ [pathApp parseDir incdir] })

/-- The `ALLOWSKIP targetName` case of `bscfInclude`: sets the
`builtin` ("vendored") flag on the first matching target. -/
def applyAllowskip (ts : List Target) (targetName : String) : List Target :=
  updateFirst ts targetName (fun t => { t with builtin := true })

/-- The graph-splicing step of the `GITINCLUDE` case of `bscfInclude`:
the targets parsed from the fetched repository are appended to the
current graph as they are (fetching itself is an external collaborator). -/
def applyGitinclude (ts includedTargets : List Target) : List Target :=
  ts ++ includedTargets

/-- The graph-splicing step of the `BUILTIN` case of `bscfInclude`: the
included targets all get `builtin = true` before being appended. -/
def applyBuiltin (ts includedTargets : List Target) : List Target :=
  ts ++ includedTargets.map (fun t => { t with builtin := true })

/-- The `for (const Target& target : targets) if (target.name == dep) { ...; break; }`
lookup pattern of `bscfGenCmd` and `bscfBuilder::buildTarget`: first
target in graph order with the given name. -/
def firstMatch (ts : List Target) (name : String) : Option Target :=
  ts.find? (fun t => t.name = name)

/-- `bscfResolveIncludes`: for each dependency name, every target in the
graph bearing that name (the scan has no `break`) contributes its own
recursively resolved includes; the target's own include directories come
last.  The C++ recursion has no cycle guard and diverges on dependency
cycles; the `fuel` argument makes that explicit (`0` models the
never-returning run). -/
def bscfResolveIncludes : Nat → Target → List Target → List String
  | 0, _, _ => []
  | fuel + 1, t, targets =>
    (t.dependencies.flatMap fun dep =>
      (targets.filter fun tg => tg.name = dep).flatMap fun tg =>
        bscfResolveIncludes fuel tg targets)
    ++ t.includes

/-- `bscfGetOutput` (Linux branches): the artifact path per target kind;
an interface target has no output (`""`, the empty path). -/
def bscfGetOutput (t : Target) : String :=
  match t.type with
  | TargetType.EXEC => pathApp (pathApp (pathApp t.path ("build")) ("bin")) t.name
  | TargetType.SLIB =>
    pathApp (pathApp (pathApp t.path ("build")) ("lib")) ("lib" ++ t.name ++ ".a")
  | TargetType.DLIB =>
    pathApp (pathApp (pathApp t.path ("build")) ("bin")) ("lib" ++ t.name ++ ".so")
  | TargetType.INTR => ""

/-- `bscfSourceCmd`: the compile command for one source file and the
updated object-name accumulator.  An unrecognized extension yields the
empty command and leaves the accumulator unchanged. -/
def bscfSourceCmd (t : Target) (c : Compiler) (source : String) (objs : List String) :
    String × List String :=
  let ext := extensionOf source
  let relpath := relativeTo source t.path
  let objname := replaceChar ('\x5c') ('_') (replaceChar ('/') ('_') relpath) ++ ".o"
  if ext = ".c" ∨ ext = ".cc" then
    (c.cc ++ " -c " ++ source ++ " -o " ++ t.path ++ "/build/obj/" ++ objname,
     objs ++ [objname])
  else if ext = ".cpp" ∨ ext = ".cxx" then
    (c.cxx ++ " -c " ++ source ++ " -o " ++ t.path ++ "/build/obj/" ++ objname,
     objs ++ [objname])
  else ("", objs)

/-- The link-flag contribution of one dependency edge in `bscfGenCmd`'s
dependency loop (first matching target only — the loop `break`s). -/
def depLinkFlags (targets : List Target) (dep : String) : String :=
  match firstMatch targets dep with
  | none => ""
  | some tg =>
    match tg.type with
    | TargetType.EXEC => ""
    | TargetType.SLIB =>
      "-L" ++ pathApp (pathApp tg.path ("build")) ("lib") ++ " "
        ++ "-l" ++ tg.name ++ " "
        ++ String.join (tg.libs.map fun lib => "-l" ++ lib ++ " ")
    | TargetType.DLIB =>
      "-L" ++ pathApp (pathApp tg.path ("build")) ("bin") ++ " "
        ++ "-l" ++ tg.name ++ " "
        ++ String.join (tg.libs.map fun lib => "-l" ++ lib ++ " ")
    | TargetType.INTR =>
      String.join (tg.libs.map fun lib => "-l" ++ lib ++ " ")

/-- The commands pushed by one dependency edge in `bscfGenCmd`'s
dependency loop: a dynamic-library dependency pushes the `cp` of its
shared object next to the consuming target's output (Linux branch);
every other kind pushes nothing. -/
def depCopyCmds (t : Target) (targets : List Target) (dep : String) : List String :=
  match firstMatch targets dep with
  | none => []
  | some tg =>
    match tg.type with
    | TargetType.DLIB =>
      ["cp " ++ pathApp (pathApp (pathApp tg.path ("build")) ("bin")) ("lib" ++ tg.name ++ ".so")
        ++ " "
        ++ pathApp (pathApp (pathApp t.path ("build")) ("bin")) ("lib" ++ tg.name ++ ".so")]
    | _ => []

/-- The per-source loop of `bscfGenCmd`: runs `bscfSourceCmd` on each
source, skipping empty results (`if (src.empty()) continue;`), appending
`comp_flags` (and, for dynamic libraries, `" -fPIC"`) to each kept
command; returns the pushed commands and the final object accumulator. -/
def compileSteps (t : Target) (c : Compiler) (flags extra : String) :
    List String → List String → List String × List String
  | [], objs => ([], objs)
  | s :: rest, objs =>
    let r := bscfSourceCmd t c s objs
    if r.1 = "" then compileSteps t c flags extra rest r.2
    else
      let next := compileSteps t c flags extra rest r.2
      ((r.1 ++ flags ++ extra) :: next.1, next.2)

/-- `bscfGenCmd`: the full Command List for one target.  The C++ pushes
into a single `commands` vector in this order: prebuild commands, the
dependency loop's copy commands, the per-source compile commands, the
single link/archive command (none for interface targets), postbuild
commands.  Flag strings are accumulated exactly as in the source:
`link_flags` starts `" "` then the target's own `-l` flags then the
dependency contributions; `comp_flags` starts `" "` then `-D` defines
then `-I` resolved includes.  Directory creation is a file-system side
effect outside the returned list.  `fuel` feeds `bscfResolveIncludes`. -/
def bscfGenCmd (fuel : Nat) (t : Target) (c : Compiler) (targets : List Target) :
    List String :=
  let link_flags := " " ++ String.join (t.libs.map fun lib => "-l" ++ lib ++ " ")
    ++ String.join (t.dependencies.map fun dep => depLinkFlags targets dep)
  let copyCmds := t.dependencies.flatMap fun dep => depCopyCmds t targets dep
  let includes := bscfResolveIncludes fuel t targets
  let comp_flags := " " ++ String.join (t.defines.map fun d => "-D" ++ d ++ " ")
    ++ String.join (includes.map fun inc => "-I" ++ inc ++ " ")
  match t.type with
  | TargetType.EXEC =>
    let step := compileSteps t c comp_flags ("") t.sources []
    let linkCmd := c.link ++ " "
      ++ String.join (step.2.map fun obj => t.path ++ "/build/obj/" ++ obj ++ " ")
      ++ "-o " ++ bscfGetOutput t
    t.prebuildcmds ++ copyCmds ++ step.1 ++ [linkCmd ++ link_flags] ++ t.postbuildcmds
  | TargetType.SLIB =>
    let step := compileSteps t c comp_flags ("") t.sources []
    let arCmd := c.ar ++ " rcs " ++ bscfGetOutput t ++ " "
      ++ String.join (step.2.map fun obj => t.path ++ "/build/obj/" ++ obj ++ " ")
    t.prebuildcmds ++ copyCmds ++ step.1 ++ [arCmd] ++ t.postbuildcmds
  | TargetType.DLIB =>
    let step := compileSteps t c comp_flags (" -fPIC") t.sources []
    let linkCmd := c.link ++ " -shared "
      ++ String.join (step.2.map fun obj => t.path ++ "/build/obj/" ++ obj ++ " ")
      ++ "-o " ++ bscfGetOutput t
    t.prebuildcmds ++ copyCmds ++ step.1 ++ [linkCmd ++ link_flags] ++ t.postbuildcmds
  | TargetType.INTR =>
    t.prebuildcmds ++ copyCmds ++ t.postbuildcmds

/-- The diagnostic output of `bscfGenCmd` and `bscfSourceCmd`: neither
function contains an output statement on any reachable path — the only
prints are in the `default:` branch of `bscfGenCmd`'s switch, which is
unreachable because the switch covers every `TargetType` constructor,
and `bscfSourceCmd` returns `""` for an unrecognized extension with no
message.  Hence the diagnostic stream is empty for every target. -/
def bscfGenCmdDiags (_t : Target) : List String := []

/-- The file-system and process environment the executor runs against.
`fileLines` gives the lines `std::getline` would read from the file at a
path (`none` when `std::exists` is false), `pathExists` models
`std::exists` on non-cache paths, and `run` gives `system(cmd) == 0`. -/
structure FS where
  fileLines : String → Option (List String)
  pathExists : String → Bool
  run : String → Bool

/-- Path of the current Fingerprint Manifest,
`t.path / "build" / "cache" / (t.name + ".sources")`. -/
def sourcesPath (t : Target) : String :=
  pathApp (pathApp (pathApp t.path ("build")) ("cache")) (t.name ++ ".sources")

/-- Path of the previous Fingerprint Manifest,
`t.path / "build" / "cache" / (t.name + ".prev.sources")`. -/
def prevSourcesPath (t : Target) : String :=
  pathApp (pathApp (pathApp t.path ("build")) ("cache")) (t.name ++ ".prev.sources")

/-- Path of the persisted Command List,
`t.path / "build" / "cache" / (t.name + ".target")`. -/
def targetCachePath (t : Target) : String :=
  pathApp (pathApp (pathApp t.path ("build")) ("cache")) (t.name ++ ".target")

/-- The manifest-comparison loop of `bscfBuilder::buildTargetCMD`:
`while (getline(cur) && getline(prev)) if (curLine != prevLine) { skip = false; break; }`.
The loop ends as soon as either stream is exhausted, so only the common
prefix of the two line lists is compared. -/
def linesMatch : List String → List String → Bool
  | a :: as, b :: bs => if a = b then linesMatch as bs else false
  | _, _ => true

/-- The skip decision at the top of `bscfBuilder::buildTargetCMD`:
under `force` never skip; otherwise skip iff both manifest files exist
and their line-comparison loop finds no mismatch. -/
def skipCheck (fs : FS) (force : Bool) (t : Target) : Bool :=
  if force then false
  else
    match fs.fileLines (sourcesPath t), fs.fileLines (prevSourcesPath t) with
    | some cur, some prev => linesMatch cur prev
    | _, _ => false

/-- The command-replay loop of `buildTargetCMD`: run each command with
`system`, stopping at the first non-zero status.  Returns the commands
actually passed to `system` (in order, including a failing one) and
whether every command succeeded. -/
def runCmds (fs : FS) : List String → List String × Bool
  | [] => ([], true)
  | cmd :: rest =>
    if fs.run cmd then
      let next := runCmds fs rest
      (cmd :: next.1, next.2)
    else ([cmd], false)

/-- The mutable state of a `bscfBuilder` instance: the names of the
targets pushed onto the `built` and `failed` vectors (the C++ stores
whole `Target` copies but only ever compares their `name` fields), plus
a trace of every command handed to `system`, recording the executor's
observable behaviour. -/
structure BuildState where
  built : List String
  failed : List String
  trace : List String
deriving DecidableEq, Repr

/-- The `b.name == t.name` membership loops over `built`/`failed`. -/
def nameMem (names : List String) (n : String) : Bool :=
  match names with
  | [] => false
  | x :: rest => if x = n then true else nameMem rest n

/-- `bscfBuilder::buildTargetCMD` (with `bforce` the builder's `force`
member): if the skip check passes, report success at once — note the
early `return true` happens before the `built.push_back(t)`, so a
skipped target is never recorded as built.  Otherwise replay the cached
command list; on full success push the target onto `built`. -/
def buildTargetCMD (fs : FS) (bforce : Bool) (t : Target) (st : BuildState) :
    Bool × BuildState :=
  if skipCheck fs bforce t then (true, st)
  else
    let r := runCmds fs ((fs.fileLines (targetCachePath t)).getD [])
    if r.2 then
      (true, { st with trace := st.trace ++ r.1, built := st.built ++ [t.name] })
    else (false, { st with trace := st.trace ++ r.1 })

/-- The dependency loop of `bscfBuilder::buildTarget`: for each
dependency name, the first matching target in the graph (if any) is
built via `recur`; on the first failure both that dependency target and
`t` are pushed onto `failed` and the loop aborts. -/
def buildDeps (targets : List Target) (recur : Target → BuildState → Bool × BuildState)
    (t : Target) : List String → BuildState → Bool × BuildState
  | [], st => (true, st)
  | dep :: rest, st =>
    match firstMatch targets dep with
    | none => buildDeps targets recur t rest st
    | some tg =>
      let r := recur tg st
      if r.1 then buildDeps targets recur t rest r.2
      else (false, { r.2 with failed := r.2.failed ++ [tg.name, t.name] })

/-- `bscfBuilder::buildTarget(const Target&, bool force)`, with `bforce`
the builder's `force` member (consulted by `buildTargetCMD`) and the
`force` parameter the per-call vendored-bypass flag.  Checks, in source
order: the vendored short-circuit, the `built` memo, the `failed` memo;
then builds dependencies (each with the parameter `force` defaulted to
`false`) and finally replays this target's commands.  The C++ recursion
has no cycle guard; `fuel` makes the divergence explicit. -/
def buildTargetF (fs : FS) (targets : List Target) (bforce : Bool) :
    Nat → Bool → Target → BuildState → Bool × BuildState
  | 0, _, _, st => (false, st)
  | fuel + 1, force, t, st =>
    if !force && t.builtin && fs.pathExists (bscfGetOutput t) then (true, st)
    else if nameMem st.built t.name then (true, st)
    else if nameMem st.failed t.name then (false, st)
    else
      let r := buildDeps targets (buildTargetF fs targets bforce fuel false) t
        t.dependencies st
      if r.1 then
        let g := buildTargetCMD fs bforce t r.2
        if g.1 then (true, g.2)
        else (false, { g.2 with failed := g.2.failed ++ [t.name] })
      else (false, r.2)

/-- The loop body of `bscfBuilder::build()`: build each target of the
graph in order (discarding the per-target result, so later targets are
attempted even after failures). -/
def buildAllState (fs : FS) (targets : List Target) (bforce : Bool) (fuel : Nat) :
    List Target → BuildState → BuildState
  | [], st => st
  | t :: rest, st =>
    buildAllState fs targets bforce fuel rest
      (buildTargetF fs targets bforce fuel false t st).2

/-- `bscfBuilder::build()`: run every target, then succeed iff the
`failed` vector ended empty. -/
def buildAll (fs : FS) (targets : List Target) (bforce : Bool) (fuel : Nat) :
    Bool × BuildState :=
  let st := buildAllState fs targets bforce fuel targets ⟨[], [], []⟩
  (st.failed.isEmpty, st)

/-- `bscfBuilder::buildTarget(const std::string&)`: find the first
target with the requested name, build it with the vendored-bypass flag
set, and report success iff its name is absent from `failed` afterwards
(the result of the recursive call itself is discarded). -/
def buildByName (fs : FS) (targets : List Target) (bforce : Bool) (fuel : Nat)
    (name : String) (st : BuildState) : Bool × BuildState :=
  match firstMatch targets name with
  | none => (false, st)
  | some t =>
    let st' := (buildTargetF fs targets bforce fuel true t st).2
    (!nameMem st'.failed t.name, st')

/-! ### Helper lemmas -/

theorem updateFirst_no_match (ts : List Target) (n : String) (f : Target → Target)
    (h : ∀ u ∈ ts, u.name ≠ n) : updateFirst ts n f = ts := by
  induction ts with
  | nil => rfl
  | cons t rest ih =>
    have ht : t.name ≠ n := h t (List.mem_cons_self t rest)
    simp only [updateFirst, if_neg ht]
    exact congrArg (t :: ·) (ih fun u hu => h u (List.mem_cons_of_mem t hu))

theorem updateFirst_first_match (ts1 ts2 : List Target) (t : Target) (n : String)
    (f : Target → Target) (h1 : ∀ u ∈ ts1, u.name ≠ n) (ht : t.name = n) :
    updateFirst (ts1 ++ t :: ts2) n f = ts1 ++ f t :: ts2 := by
  induction ts1 with
  | nil => simp only [List.nil_append, updateFirst, if_pos ht]
  | cons u rest ih =>
    have hu : u.name ≠ n := h1 u (List.mem_cons_self u rest)
    simp only [List.cons_append, updateFirst, if_neg hu]
    exact congrArg (u :: ·) (ih fun v hv => h1 v (List.mem_cons_of_mem u hv))

/-! ### Sample data used in witnesses and counterexamples -/

/-- A plain static-library target with the vendored flag clear, as a
`TARGET SLIB zlib ...` declaration inside a repository pulled in by
`GITINCLUDE` would produce it. -/
def tZlib : Target :=
  { type := TargetType.SLIB, name := "zlib", path := "/p/lib/zlib", sources := [],
    dependencies := [], prebuildcmds := [], postbuildcmds := [], defines := [],
    libs := [], includes := [], builtin := false }

/-- A plain executable target named `app`. -/
def tApp : Target :=
  { type := TargetType.EXEC, name := "app", path := "/p", sources := [],
    dependencies := [], prebuildcmds := [], postbuildcmds := [], defines := [],
    libs := [], includes := [], builtin := false }

/-! ### C9 — mutating directives: first match, silent no-op -/

/-- C9: a mutating directive (`DEPEND`, `DEFINE`, `LIB`, `INCDIR`,
`PREBUILD`, `POSTBUILD`, `ALLOWSKIP`) appends to or flags the first
target in the graph built so far whose name matches, and when no target
with that name exists yet it leaves the graph entirely unchanged (the
source's lookup loops simply find no match and the case bodies contain
no output statement, so nothing is reported). -/
theorem mutating_directives_first_match_or_noop
    (ts ts1 ts2 : List Target) (t : Target) (nm d cmd pcmd m lib inc pd : String)
    (hno : ∀ u ∈ ts, u.name ≠ nm) (hpre : ∀ u ∈ ts1, u.name ≠ nm) (ht : t.name = nm) :
    (applyDepend ts nm d = ts ∧ applyDefine ts nm m = ts ∧ applyLib ts nm lib = ts ∧
      applyIncdir pd ts nm inc = ts ∧ applyPrebuild ts nm cmd = ts ∧
      applyPostbuild ts nm pcmd = ts ∧ applyAllowskip ts nm = ts) ∧
    (applyDepend (ts1 ++ t :: ts2) nm d
        = ts1 ++ { t with dependencies := t.dependencies ++ [d] } :: ts2 ∧
      applyDefine (ts1 ++ t :: ts2) nm m
        = ts1 ++ { t with defines := t.defines ++ [m] } :: ts2 ∧
      applyLib (ts1 ++ t :: ts2) nm lib
        = ts1 ++ { t with libs := t.libs ++ [lib] } :: ts2 ∧
      applyIncdir pd (ts1 ++ t :: ts2) nm inc
        = ts1 ++ { t with includes := t.includes ++ [pathApp pd inc] } :: ts2 ∧
      applyPrebuild (ts1 ++ t :: ts2) nm cmd
        = ts1 ++ { t with prebuildcmds := t.prebuildcmds ++ [cmd] } :: ts2 ∧
      applyPostbuild (ts1 ++ t :: ts2) nm pcmd
        = ts1 ++ { t with postbuildcmds := t.postbuildcmds ++ [pcmd] } :: ts2 ∧
      applyAllowskip (ts1 ++ t :: ts2) nm
        = ts1 ++ { t with builtin := true } :: ts2) :=
  ⟨⟨updateFirst_no_match ts nm _ hno, updateFirst_no_match ts nm _ hno,
    updateFirst_no_match ts nm _ hno, updateFirst_no_match ts nm _ hno,
    updateFirst_no_match ts nm _ hno, updateFirst_no_match ts nm _ hno,
    updateFirst_no_match ts nm _ hno⟩,
   ⟨updateFirst_first_match ts1 ts2 t nm _ hpre ht,
    updateFirst_first_match ts1 ts2 t nm _ hpre ht,
    updateFirst_first_match ts1 ts2 t nm _ hpre ht,
    updateFirst_first_match ts1 ts2 t nm _ hpre ht,
    updateFirst_first_match ts1 ts2 t nm _ hpre ht,
    updateFirst_first_match ts1 ts2 t nm _ hpre ht,
    updateFirst_first_match ts1 ts2 t nm _ hpre ht⟩⟩

/-- C9 witness: on the one-target graph `[tZlib]`, a `DEPEND app m`
directive is a no-op (no target named `app` yet), while on
`[tZlib, tApp]` it mutates `tApp`, the first (and only) match. -/
theorem mutating_directives_witness :
    (applyDepend [tZlib] ("app") ("m") = [tZlib] ∧
      applyAllowskip [tZlib] ("app") = [tZlib]) ∧
    (applyDepend [tZlib, tApp] ("app") ("m")
        = [tZlib, { tApp with dependencies := tApp.dependencies ++ ["m"] }] ∧
      applyAllowskip [tZlib, tApp] ("app") = [tZlib, { tApp with builtin := true }]) := by
  have h := mutating_directives_first_match_or_noop [tZlib] [tZlib] [] tApp ("app")
    ("m") ("c") ("pc") ("M") ("l") ("i") ("/p") (by decide) (by decide) rfl
  exact ⟨⟨h.1.1, h.1.2.2.2.2.2.2⟩, ⟨h.2.1, h.2.2.2.2.2.2.2⟩⟩

/-! ### C3 — vendored marking of externally fetched targets -/

/-- C3 counterexample: a target pulled into the graph by `GITINCLUDE`
keeps its `builtin` flag clear — the `GITINCLUDE` case of `bscfInclude`
splices the included targets without setting the vendored flag, so the
claim that every target pulled by `GITINCLUDE` or `BUILTIN` is marked
vendored is false for `GITINCLUDE`. -/
theorem gitinclude_not_vendored_cex :
    applyGitinclude [] [tZlib] = [tZlib] ∧ tZlib.builtin = false :=
  ⟨rfl, rfl⟩

/-- C3 (amended): only the `BUILTIN` directive marks the targets it
pulls in as vendored (`builtin = true`); `GITINCLUDE` splices the
targets parsed from the fetched repository into the graph unchanged, so
they are vendored only if their own configuration said so. -/
theorem builtin_marks_vendored_gitinclude_does_not (ts inc : List Target) :
    applyGitinclude ts inc = ts ++ inc ∧
    applyBuiltin ts inc = ts ++ inc.map (fun u => { u with builtin := true }) ∧
    ∀ u ∈ inc.map (fun u => { u with builtin := true }), u.builtin = true := by
  refine ⟨rfl, rfl, ?_⟩
  intro u hu
  obtain ⟨v, _, rfl⟩ := List.mem_map.mp hu
  rfl

/-- C3 (amended) witness: concrete evaluation on a one-target splice. -/
theorem builtin_marks_vendored_witness :
    applyBuiltin [tApp] [tZlib] = [tApp, { tZlib with builtin := true }] ∧
    applyGitinclude [tApp] [tZlib] = [tApp, tZlib] :=
  ⟨(builtin_marks_vendored_gitinclude_does_not [tApp] [tZlib]).2.1,
   (builtin_marks_vendored_gitinclude_does_not [tApp] [tZlib]).1⟩

/-! ### C1 — the fingerprint skip decision -/

theorem linesMatch_iff_take (a b : List String) :
    linesMatch a b = true ↔ a.take b.length = b.take a.length := by
  induction a generalizing b with
  | nil => cases b <;> simp [linesMatch]
  | cons x as ih =>
    cases b with
    | nil => simp [linesMatch]
    | cons y bs =>
      by_cases hxy : x = y
      · subst hxy
        simp [linesMatch, ih]
      · simp [linesMatch, if_neg hxy, hxy]

/-- C1 (amended): the executor skips a target iff the force override is
not set, both manifest files exist, and the two manifests agree line for
line over their common prefix — i.e. up to the length of the shorter
file.  A mismatch within the common prefix or a missing manifest forces
a rebuild, but a difference only in line count does not: the comparison
loop stops as soon as either file is exhausted. -/
theorem skip_iff_common_prefix_agrees (fs : FS) (force : Bool) (t : Target) :
    skipCheck fs force t = true ↔
      force = false ∧
        ∃ cur prev, fs.fileLines (sourcesPath t) = some cur ∧
          fs.fileLines (prevSourcesPath t) = some prev ∧
          cur.take prev.length = prev.take cur.length := by
  unfold skipCheck
  cases force with
  | true => simp
  | false =>
    simp only [if_false, Bool.false_eq_true, not_false_eq_true, true_and]
    cases hc : fs.fileLines (sourcesPath t) with
    | none => simp [hc]
    | some cur =>
      cases hp : fs.fileLines (prevSourcesPath t) with
      | none => simp [hc, hp]
      | some prev => simp [hc, hp, linesMatch_iff_take]

/-- A file system on which the current manifest of `tApp` has two lines
and the previous manifest has one, the single previous line agreeing
with the first current line. -/
def fsMismatchCount : FS :=
  { fileLines := fun p =>
      if p = sourcesPath tApp then some ["11 aaa", "22 bbb"]
      else if p = prevSourcesPath tApp then some ["11 aaa"]
      else none,
    pathExists := fun _ => false,
    run := fun _ => true }

/-- C1 counterexample: with the force override clear, a current manifest
of two lines and a previous manifest of one line whose common prefix
agrees, the executor still skips — `buildTargetCMD` returns success
with the state untouched (no command is run) — although the claim says a
differing line count between the two manifests forces a rebuild. -/
theorem skip_despite_count_mismatch_cex :
    fsMismatchCount.fileLines (sourcesPath tApp) = some ["11 aaa", "22 bbb"] ∧
    fsMismatchCount.fileLines (prevSourcesPath tApp) = some ["11 aaa"] ∧
    skipCheck fsMismatchCount false tApp = true ∧
    buildTargetCMD fsMismatchCount false tApp ⟨[], [], []⟩ = (true, ⟨[], [], []⟩) := by
  refine ⟨rfl, rfl, by decide, ?_⟩
  have h : skipCheck fsMismatchCount false tApp = true := by decide
  simp [buildTargetCMD, h]

/-! ### C2 — what a fingerprint skip does to the executor state -/

/-- C2 (amended): when the fingerprint skip decision says a target may
be skipped, `buildTargetCMD` succeeds without executing any command and
with the builder state completely unchanged — in particular the target
is NOT added to the `built` set (the early `return true` precedes the
`built.push_back`), so a later request for the same target is served by
re-evaluating the skip decision, not by the built-set memoization. -/
theorem skip_succeeds_without_marking_built (fs : FS) (bforce : Bool) (t : Target)
    (st : BuildState) (h : skipCheck fs bforce t = true) :
    buildTargetCMD fs bforce t st = (true, st) := by
  simp [buildTargetCMD, h]

/-- C2 (amended) witness: the skip fires on `fsMismatchCount` and the
state `⟨["x"], [], []⟩` comes back untouched. -/
theorem skip_succeeds_without_marking_built_witness :
    skipCheck fsMismatchCount false tApp = true ∧
    buildTargetCMD fsMismatchCount false tApp ⟨["x"], [], []⟩ = (true, ⟨["x"], [], []⟩) :=
  ⟨by decide,
   skip_succeeds_without_marking_built fsMismatchCount false tApp ⟨["x"], [], []⟩ (by decide)⟩

/-- C2 counterexample: on a skip, the claim says the executor marks the
target as built; in fact after a skipped `buildTargetCMD` — and even
after a full `buildTarget` call on the same target — the `built` set is
still empty, so `"app"` was never marked built. -/
theorem skip_not_marked_built_cex :
    skipCheck fsMismatchCount false tApp = true ∧
    (buildTargetCMD fsMismatchCount false tApp ⟨[], [], []⟩).2.built = [] ∧
    buildTargetF fsMismatchCount [tApp] false 2 false tApp ⟨[], [], []⟩
      = (true, ⟨[], [], []⟩) := by
  decide

/-! ### C6 — duplicate target names: first-match versus accumulation -/

theorem firstMatch_append (ts1 ts2 : List Target) (tg : Target) (d : String)
    (h1 : ∀ u ∈ ts1, u.name ≠ d) (ht : tg.name = d) :
    firstMatch (ts1 ++ tg :: ts2) d = some tg := by
  induction ts1 with
  | nil =>
    simp only [List.nil_append, firstMatch]
    exact List.find?_cons_of_pos _ (by simp [ht])
  | cons u rest ih =>
    have hu : u.name ≠ d := h1 u (List.mem_cons_self u rest)
    simp only [List.cons_append, firstMatch] at ih ⊢
    rw [List.find?_cons_of_neg _ (by simp [hu])]
    exact ih fun v hv => h1 v (List.mem_cons_of_mem u hv)

theorem firstMatch_singleton (tg : Target) (d : String) (ht : tg.name = d) :
    firstMatch [tg] d = some tg :=
  List.find?_cons_of_pos _ (by simp [ht])

/-- Two distinct library targets that share the name `d`. -/
def tDup1 : Target :=
  { type := TargetType.SLIB, name := "d", path := "/p/lib/d1", sources := [],
    dependencies := [], prebuildcmds := [], postbuildcmds := [], defines := [],
    libs := [], includes := ["/p/lib/d1/include"], builtin := false }

/-- Second target named `d`, with a different include directory. -/
def tDup2 : Target :=
  { type := TargetType.SLIB, name := "d", path := "/p/lib/d2", sources := [],
    dependencies := [], prebuildcmds := [], postbuildcmds := [], defines := [],
    libs := [], includes := ["/p/lib/d2/include"], builtin := false }

/-- A target depending on the duplicated name `d`. -/
def tUser : Target :=
  { type := TargetType.EXEC, name := "user", path := "/p", sources := [],
    dependencies := ["d"], prebuildcmds := [], postbuildcmds := [], defines := [],
    libs := [], includes := [], builtin := false }

/-- C6 counterexample: with two targets named `d` in the graph, include
resolution for a target depending on `d` picks up the include
directories of BOTH — the second one does not come from the first match
or from the target itself — so the claim that every dependency-name
lookup (include resolution included) resolves to the first match only is
false. -/
theorem resolve_includes_uses_every_duplicate_cex :
    firstMatch [tDup1, tDup2] ("d") = some tDup1 ∧
    bscfResolveIncludes 2 tUser [tDup1, tDup2]
      = ["/p/lib/d1/include", "/p/lib/d2/include"] ∧
    ("/p/lib/d2/include" ∈ tDup1.includes ++ tUser.includes) = False := by
  refine ⟨by decide, by decide, by simp [tDup1, tUser]⟩

/-- C6 (amended): dependency-name lookups during command generation and
during building go through `firstMatch` (the source loops `break` on the
first name match), so a duplicate later in the graph is invisible to
them: the dependency link flags, the dependency copy commands and the
executor's dependency step are unchanged when the later duplicates are
dropped.  Include resolution is the exception: its scan has no `break`,
so every target bearing the dependency's name contributes its includes. -/
theorem lookups_first_match_except_resolve (ts1 ts2 : List Target) (tg : Target)
    (d : String) (h1 : ∀ u ∈ ts1, u.name ≠ d) (ht : tg.name = d) :
    firstMatch (ts1 ++ tg :: ts2) d = some tg ∧
    depLinkFlags (ts1 ++ tg :: ts2) d = depLinkFlags [tg] d ∧
    (∀ t : Target, depCopyCmds t (ts1 ++ tg :: ts2) d = depCopyCmds t [tg] d) ∧
    (∀ fs bforce fuel (t : Target) (st : BuildState),
      buildDeps (ts1 ++ tg :: ts2) (buildTargetF fs (ts1 ++ tg :: ts2) bforce fuel false)
          t [d] st
        = (let r := buildTargetF fs (ts1 ++ tg :: ts2) bforce fuel false tg st
           if r.1 then (true, r.2)
           else (false, { r.2 with failed := r.2.failed ++ [tg.name, t.name] }))) ∧
    (∀ (t : Target) (n : Nat), d ∈ t.dependencies →
      ∀ u ∈ ts1 ++ tg :: ts2, u.name = d →
        ∀ inc ∈ u.includes, inc ∈ bscfResolveIncludes (n + 2) t (ts1 ++ tg :: ts2)) := by
  have hfm := firstMatch_append ts1 ts2 tg d h1 ht
  have hfs := firstMatch_singleton tg d ht
  refine ⟨hfm, ?_, ?_, ?_, ?_⟩
  · unfold depLinkFlags
    rw [hfm, hfs]
  · intro t
    unfold depCopyCmds
    rw [hfm, hfs]
  · intro fs bforce fuel t st
    simp only [buildDeps, hfm]
  · intro t n hd u hu hun inc hinc
    show inc ∈ bscfResolveIncludes (n + 2) t (ts1 ++ tg :: ts2)
    have : inc ∈ bscfResolveIncludes (n + 1) u (ts1 ++ tg :: ts2) := by
      cases hn1 : n + 1 with
      | zero => omega
      | succ m =>
        simp only [bscfResolveIncludes]
        exact List.mem_append_right _ hinc
    simp only [bscfResolveIncludes]
    refine List.mem_append_left _ (List.mem_flatMap.mpr ⟨d, hd, ?_⟩)
    exact List.mem_flatMap.mpr ⟨u, List.mem_filter.mpr ⟨hu, by simp [hun]⟩, this⟩

/-- C6 (amended) witness: on the duplicate graph `[tDup1, tDup2]` the
link-flag lookup for `d` sees only `tDup1`, while include resolution
reaches `tDup2`'s include directory. -/
theorem lookups_first_match_witness :
    depLinkFlags [tDup1, tDup2] ("d") = depLinkFlags [tDup1] ("d") ∧
    ("/p/lib/d2/include" ∈ bscfResolveIncludes 2 tUser [tDup1, tDup2]) :=
  ⟨(lookups_first_match_except_resolve [] [tDup2] tDup1 ("d") (by decide) rfl).2.1,
   (lookups_first_match_except_resolve [] [tDup2] tDup1 ("d") (by decide) rfl).2.2.2.2
     tUser 0 (by decide) tDup2 (by decide) rfl ("/p/lib/d2/include") (by decide)⟩

/-! ### C8 — include resolution refines the spec's contract -/

/-- The Flag Resolver contract as the spec words it (§4.2), written
independently of the source: for each dependency in declaration order,
recursively resolve the include list of the dependency target (looked up
by name — under unique names, "the" dependency target), then append the
target's own declared include directories.  Used only to be compared
with `bscfResolveIncludes`. -/
def resolveIncludesSpec : Nat → Target → List Target → List String
  | 0, _, _ => []
  | fuel + 1, t, ts =>
    (t.dependencies.flatMap fun dep =>
      match firstMatch ts dep with
      | some tg => resolveIncludesSpec fuel tg ts
      | none => [])
    ++ t.includes

theorem filter_name_eq_firstMatch_toList (ts : List Target) (d : String)
    (h : (ts.map Target.name).Nodup) :
    ts.filter (fun tg => tg.name = d) = (firstMatch ts d).toList := by
  induction ts with
  | nil => rfl
  | cons t rest ih =>
    rw [List.map_cons, List.nodup_cons] at h
    by_cases htd : t.name = d
    · have hrest : rest.filter (fun tg => tg.name = d) = [] := by
        refine List.filter_eq_nil_iff.mpr fun u hu => ?_
        have : u.name ≠ t.name := fun he => h.1 (he ▸ List.mem_map_of_mem Target.name hu)
        simp [htd ▸ this]
      simp [List.filter_cons, htd, firstMatch, List.find?_cons_of_pos, hrest]
    · have := ih h.2
      simp only [firstMatch] at this ⊢
      rw [List.filter_cons_of_neg (by simp [htd]), List.find?_cons_of_neg _ (by simp [htd])]
      exact this

/-- C8: under the graph convention the spec states (target names unique,
so "the dependency" is well defined), `bscfResolveIncludes` computes
exactly the spec's contract: for each dependency in declaration order
the dependency target's own recursively resolved include list (its
dependencies' includes before its own), followed by the target's own
declared include directories.  Both sides are plain Lean functions of
the target and the graph, so the resolution is pure by construction;
`fuel` models the source's unguarded recursion, identically on both
sides. -/
theorem resolve_includes_refines_spec (ts : List Target)
    (h : (ts.map Target.name).Nodup) :
    ∀ (n : Nat) (t : Target), bscfResolveIncludes n t ts = resolveIncludesSpec n t ts := by
  intro n
  induction n with
  | zero => intro t; rfl
  | succ m ih =>
    intro t
    simp only [bscfResolveIncludes, resolveIncludesSpec]
    refine congrArg (· ++ t.includes) (List.flatMap_congr ?_)
    intro dep _
    rw [filter_name_eq_firstMatch_toList ts dep h]
    cases firstMatch ts dep with
    | none => rfl
    | some tg => simp [Option.toList, ih tg]

/-- C8 witness: on a two-target graph with distinct names, the resolver
agrees with the spec contract and yields the dependency's includes
before the target's own. -/
theorem resolve_includes_refines_spec_witness :
    ((([tDup1, { tUser with includes := ["/p/include"] }] : List Target).map
        Target.name).Nodup) ∧
    bscfResolveIncludes 2 { tUser with includes := ["/p/include"] }
        [tDup1, { tUser with includes := ["/p/include"] }]
      = resolveIncludesSpec 2 { tUser with includes := ["/p/include"] }
          [tDup1, { tUser with includes := ["/p/include"] }] ∧
    bscfResolveIncludes 2 { tUser with includes := ["/p/include"] }
        [tDup1, { tUser with includes := ["/p/include"] }]
      = ["/p/lib/d1/include", "/p/include"] :=
  ⟨by decide,
   resolve_includes_refines_spec _ (by decide) 2 _,
   by decide⟩

/-! ### Command-generator structure (claims C5 and C7) -/

/-- The file extensions for which `bscfSourceCmd` emits a compile
command (`.c`/`.cc` via the C compiler, `.cpp`/`.cxx` via the C++
compiler). -/
def recognizedExt (e : String) : Bool :=
  decide (e = ".c" ∨ e = ".cc" ∨ e = ".cpp" ∨ e = ".cxx")

theorem append_ne_empty (a b : String) (hb : b ≠ "") : a ++ b ≠ "" := by
  intro h
  apply hb
  have hl := congrArg String.length h
  rw [String.length_append, String.length_empty] at hl
  have h0 : b.length = 0 := by omega
  cases b with
  | mk data =>
    cases data with
    | nil => rfl
    | cons c cs => simp [String.length] at h0

theorem bscfSourceCmd_unrecognized (t : Target) (c : Compiler) (s : String)
    (objs : List String) (h : recognizedExt (extensionOf s) = false) :
    bscfSourceCmd t c s objs = ("", objs) := by
  simp only [recognizedExt, decide_eq_false_iff_not, not_or] at h
  obtain ⟨h1, h2, h3, h4⟩ := h
  unfold bscfSourceCmd
  rw [if_neg (by tauto), if_neg (by tauto)]

theorem bscfSourceCmd_fst_ne_empty (t : Target) (c : Compiler) (s : String)
    (objs : List String) (h : recognizedExt (extensionOf s) = true) :
    (bscfSourceCmd t c s objs).1 ≠ "" := by
  simp only [recognizedExt, decide_eq_true_eq] at h
  unfold bscfSourceCmd
  have hobj : ∀ q : String, q ++ ".o" ≠ "" := fun q => append_ne_empty q (".o") (by decide)
  rcases h with h | h | h | h
  · rw [if_pos (Or.inl h)]; exact append_ne_empty _ _ (hobj _)
  · rw [if_pos (Or.inr h)]; exact append_ne_empty _ _ (hobj _)
  all_goals
    rw [if_neg (by simp [h]), if_pos (by tauto)]
    exact append_ne_empty _ _ (hobj _)

theorem bscfSourceCmd_acc (t : Target) (c : Compiler) (s : String) (objs : List String) :
    bscfSourceCmd t c s objs
      = ((bscfSourceCmd t c s []).1, objs ++ (bscfSourceCmd t c s []).2) := by
  by_cases h1 : extensionOf s = ".c" ∨ extensionOf s = ".cc"
  · simp [bscfSourceCmd, h1]
  · by_cases h2 : extensionOf s = ".cpp" ∨ extensionOf s = ".cxx"
    · simp [bscfSourceCmd, h1, h2]
    · simp [bscfSourceCmd, h1, h2]

theorem compileSteps_structure (t : Target) (c : Compiler) (flags extra : String) :
    ∀ (srcs objs : List String),
      compileSteps t c flags extra srcs objs
        = ((srcs.filter fun s => recognizedExt (extensionOf s)).map
             (fun s => (bscfSourceCmd t c s []).1 ++ flags ++ extra),
           objs ++ (srcs.filter fun s => recognizedExt (extensionOf s)).flatMap
             (fun s => (bscfSourceCmd t c s []).2)) := by
  intro srcs
  induction srcs with
  | nil => intro objs; simp [compileSteps]
  | cons s rest ih =>
    intro objs
    by_cases hs : recognizedExt (extensionOf s) = true
    · have hne := bscfSourceCmd_fst_ne_empty t c s ([]) hs
      simp only [compileSteps, bscfSourceCmd_acc t c s objs]
      rw [if_neg hne, ih, List.filter_cons_of_pos (by simpa using hs)]
      simp [List.append_assoc]
    · have hu := bscfSourceCmd_unrecognized t c s objs
        (by simpa using Bool.not_eq_true _ ▸ hs)
      simp only [compileSteps, hu, if_true]
      rw [ih, List.filter_cons_of_neg (by simpa using hs)]

/-- The compile-flag string of `bscfGenCmd`: `" "`, one `-D` per define,
one `-I` per resolved include directory. -/
def genCompFlags (fuel : Nat) (t : Target) (ts : List Target) : String :=
  " " ++ String.join (t.defines.map fun d => "-D" ++ d ++ " ")
    ++ String.join ((bscfResolveIncludes fuel t ts).map fun inc => "-I" ++ inc ++ " ")

/-- The link-flag string of `bscfGenCmd`: `" "`, one `-l` per declared
library, then each dependency edge's contribution. -/
def genLinkFlags (t : Target) (ts : List Target) : String :=
  " " ++ String.join (t.libs.map fun lib => "-l" ++ lib ++ " ")
    ++ String.join (t.dependencies.map fun dep => depLinkFlags ts dep)

/-- The extra per-compile flag: position-independent code for dynamic
libraries only. -/
def genExtraFlag (t : Target) : String :=
  match t.type with
  | TargetType.DLIB => " -fPIC"
  | _ => ""

/-- The object files accumulated by the per-source loop: one per source
with a recognized extension, in source order. -/
def genObjs (t : Target) (c : Compiler) : List String :=
  (t.sources.filter fun s => recognizedExt (extensionOf s)).flatMap
    fun s => (bscfSourceCmd t c s []).2

/-- The single link/archive step of `bscfGenCmd` per target kind
(meaningless for interface targets, which emit none). -/
def genLinkCmd (t : Target) (c : Compiler) (ts : List Target) : String :=
  match t.type with
  | TargetType.EXEC =>
    c.link ++ " "
      ++ String.join ((genObjs t c).map fun obj => t.path ++ "/build/obj/" ++ obj ++ " ")
      ++ "-o " ++ bscfGetOutput t ++ genLinkFlags t ts
  | TargetType.SLIB =>
    c.ar ++ " rcs " ++ bscfGetOutput t ++ " "
      ++ String.join ((genObjs t c).map fun obj => t.path ++ "/build/obj/" ++ obj ++ " ")
  | TargetType.DLIB =>
    c.link ++ " -shared "
      ++ String.join ((genObjs t c).map fun obj => t.path ++ "/build/obj/" ++ obj ++ " ")
      ++ "-o " ++ bscfGetOutput t ++ genLinkFlags t ts
  | TargetType.INTR => ""

/-- Structure of the generated Command List, shared by the proofs of
the command-generator claims. -/
theorem bscfGenCmd_structure (fuel : Nat) (t : Target) (c : Compiler) (ts : List Target) :
    bscfGenCmd fuel t c ts
      = t.prebuildcmds
        ++ (t.dependencies.flatMap fun dep => depCopyCmds t ts dep)
        ++ (match t.type with
            | TargetType.INTR => []
            | _ =>
              ((t.sources.filter fun s => recognizedExt (extensionOf s)).map
                fun s => (bscfSourceCmd t c s []).1 ++ genCompFlags fuel t ts
                  ++ genExtraFlag t)
              ++ [genLinkCmd t c ts])
        ++ t.postbuildcmds := by
  cases ht : t.type with
  | EXEC =>
    simp only [bscfGenCmd, ht, compileSteps_structure, genLinkCmd, genObjs, genLinkFlags,
      genCompFlags, genExtraFlag, List.nil_append, List.append_assoc]
  | SLIB =>
    simp only [bscfGenCmd, ht, compileSteps_structure, genLinkCmd, genObjs, genLinkFlags,
      genCompFlags, genExtraFlag, List.nil_append, List.append_assoc]
  | DLIB =>
    simp only [bscfGenCmd, ht, compileSteps_structure, genLinkCmd, genObjs, genLinkFlags,
      genCompFlags, genExtraFlag, List.nil_append, List.append_assoc]
  | INTR =>
    simp only [bscfGenCmd, ht, List.nil_append, List.append_assoc]

/-- C5 (amended): the generated Command List consists, in order, of the
prebuild commands in declaration order, then one artifact-copy command
per dynamic-library dependency (in dependency order — these are pushed
by the dependency loop before any compile command), then one compile
command per source file whose extension is a recognized native source
extension (sources with other extensions contribute nothing), then
exactly one final link step — executable link, static-library archive,
or dynamic-library shared link, named per the platform's conventions —
and finally the postbuild commands in declaration order; an interface
target emits no compile or link steps at all. -/
theorem command_list_structure (fuel : Nat) (t : Target) (c : Compiler) (ts : List Target) :
    bscfGenCmd fuel t c ts
      = t.prebuildcmds
        ++ (t.dependencies.flatMap fun dep => depCopyCmds t ts dep)
        ++ (match t.type with
            | TargetType.INTR => []
            | _ =>
              ((t.sources.filter fun s => recognizedExt (extensionOf s)).map
                fun s => (bscfSourceCmd t c s []).1 ++ genCompFlags fuel t ts
                  ++ genExtraFlag t)
              ++ [genLinkCmd t c ts])
        ++ t.postbuildcmds :=
  bscfGenCmd_structure fuel t c ts

/-- A dynamic-library target `dll` under `/p/lib/dll`. -/
def tDll : Target :=
  { type := TargetType.DLIB, name := "dll", path := "/p/lib/dll", sources := [],
    dependencies := [], prebuildcmds := [], postbuildcmds := [], defines := [],
    libs := [], includes := [], builtin := false }

/-- An executable target depending on `dll`, whose only declared source
has the unrecognized extension `.zzz`. -/
def tMain : Target :=
  { type := TargetType.EXEC, name := "app2", path := "/p", sources := ["/p/src/data.zzz"],
    dependencies := ["dll"], prebuildcmds := [], postbuildcmds := [], defines := [],
    libs := [], includes := [], builtin := false }

/-- C5 counterexample: for `tMain` — no prebuild or postbuild commands,
a single declared source, one dynamic-library dependency — the generated
list has two commands, but the first is the dependency's `cp` artifact
copy (no prebuild exists and no command mentions the declared source),
so the list is not "prebuilds, one compile per source, one link,
postbuilds": the copy command is extra and the `.zzz` source got no
compile command. -/
theorem command_list_shape_cex :
    tMain.prebuildcmds = [] ∧ tMain.postbuildcmds = [] ∧
    tMain.sources = ["/p/src/data.zzz"] ∧
    bscfGenCmd 2 tMain defaultGNUCompiler [tDll, tMain]
      = ["cp /p/lib/dll/build/bin/libdll.so /p/build/bin/libdll.so",
         "g++ -o /p/build/bin/app2 -L/p/lib/dll/build/bin -ldll "] ∧
    (∀ cmd ∈ bscfGenCmd 2 tMain defaultGNUCompiler [tDll, tMain],
      ¬ List.IsInfix (("data.zzz").data) cmd.data) := by
  refine ⟨rfl, rfl, rfl, by decide, by decide⟩

/-! ### C7 — unrecognized source extensions -/

/-- An executable target whose only source is a `.txt` file. -/
def tNotes : Target :=
  { type := TargetType.EXEC, name := "notes", path := "/q", sources := ["/q/src/notes.txt"],
    dependencies := [], prebuildcmds := [], postbuildcmds := [], defines := [],
    libs := [], includes := [], builtin := false }

/-- C7 counterexample: the `.txt` source of `tNotes` produces no compile
command — only the link step is generated — and the diagnostic stream of
the generator is empty (neither `bscfSourceCmd` nor the reachable
branches of `bscfGenCmd` contain an output statement), so the claim that
the file is "skipped with a diagnostic" is false: it is skipped
silently. -/
theorem unrecognized_source_silent_cex :
    bscfGenCmdDiags tNotes = [] ∧
    tNotes.sources = ["/q/src/notes.txt"] ∧
    bscfGenCmd 1 tNotes defaultGNUCompiler [tNotes] = ["g++ -o /q/build/bin/notes "] ∧
    (∀ cmd ∈ bscfGenCmd 1 tNotes defaultGNUCompiler [tNotes],
      ¬ List.IsInfix (("notes.txt").data) cmd.data) := by
  refine ⟨rfl, rfl, by decide, by decide⟩

/-- C7 (amended): a declared source file whose extension is not a
recognized native source extension produces no compile command and is
skipped silently — no diagnostic is emitted — rather than being an
error: dropping all unrecognized sources from a target leaves its
generated Command List (compile, link and postbuild commands included)
unchanged, so everything else is still generated. -/
theorem unrecognized_sources_skipped_rest_generated (fuel : Nat) (t : Target)
    (c : Compiler) (ts : List Target) :
    bscfGenCmdDiags t = [] ∧
    bscfGenCmd fuel { t with sources := t.sources.filter fun s => recognizedExt (extensionOf s) } c ts
      = bscfGenCmd fuel t c ts := by
  refine ⟨rfl, ?_⟩
  have hres : ∀ (n : Nat),
      bscfResolveIncludes n { t with sources := t.sources.filter fun s => recognizedExt (extensionOf s) } ts
        = bscfResolveIncludes n t ts := by
    intro n
    cases n with
    | zero => rfl
    | succ m => rfl
  rw [bscfGenCmd_structure, bscfGenCmd_structure]
  simp only [genCompFlags, genLinkCmd, genObjs, genLinkFlags, genExtraFlag, hres,
    List.filter_filter, Bool.and_self]
  rfl

/-! ### Executor lemmas (claims C4 and C10) -/

theorem buildTargetF_builtin_short (fs : FS) (ts : List Target) (bforce : Bool) (n : Nat)
    (t : Target) (st : BuildState) (hb : t.builtin = true)
    (hex : fs.pathExists (bscfGetOutput t) = true) :
    buildTargetF fs ts bforce (n + 1) false t st = (true, st) := by
  simp [buildTargetF, hb, hex]

theorem buildTargetF_built_memo (fs : FS) (ts : List Target) (bforce force : Bool) (n : Nat)
    (t : Target) (st : BuildState) (h : nameMem st.built t.name = true) :
    buildTargetF fs ts bforce (n + 1) force t st = (true, st) := by
  by_cases hc : (!force && t.builtin && fs.pathExists (bscfGetOutput t)) = true
  · simp [buildTargetF, hc]
  · simp only [Bool.not_eq_true] at hc
    simp [buildTargetF, hc, h]

theorem buildTargetF_failed_memo (fs : FS) (ts : List Target) (bforce force : Bool) (n : Nat)
    (t : Target) (st : BuildState)
    (hshort : (!force && t.builtin && fs.pathExists (bscfGetOutput t)) = false)
    (hbuilt : nameMem st.built t.name = false) (hfail : nameMem st.failed t.name = true) :
    buildTargetF fs ts bforce (n + 1) force t st = (false, st) := by
  simp [buildTargetF, hshort, hbuilt, hfail]

theorem buildTargetF_skip_no_exec (fs : FS) (ts : List Target) (bforce : Bool) (n : Nat)
    (t : Target) (st : BuildState)
    (hshort : (t.builtin && fs.pathExists (bscfGetOutput t)) = false)
    (hbuilt : nameMem st.built t.name = false) (hfail : nameMem st.failed t.name = false)
    (hdeps : t.dependencies = []) (hskip : skipCheck fs bforce t = true) :
    buildTargetF fs ts bforce (n + 1) false t st = (true, st) := by
  simp [buildTargetF, hshort, hbuilt, hfail, hdeps, buildDeps, buildTargetCMD, hskip]

theorem buildTargetCMD_name_path (fs : FS) (bforce : Bool) (t u : Target)
    (hn : u.name = t.name) (hp : u.path = t.path) :
    ∀ st : BuildState, buildTargetCMD fs bforce u st = buildTargetCMD fs bforce t st := by
  intro st
  unfold buildTargetCMD skipCheck sourcesPath prevSourcesPath targetCachePath
  rw [hn, hp]

theorem buildDeps_name (ts : List Target) (recur : Target → BuildState → Bool × BuildState)
    (t u : Target) (hn : u.name = t.name) :
    ∀ (deps : List String) (st : BuildState),
      buildDeps ts recur u deps st = buildDeps ts recur t deps st := by
  intro deps
  induction deps with
  | nil => intro st; rfl
  | cons d rest ih =>
    intro st
    simp only [buildDeps]
    cases firstMatch ts d with
    | none => exact ih st
    | some tg =>
      dsimp only
      rw [hn]
      cases (recur tg st).1 with
      | true => simp only [if_true]; exact ih _
      | false => simp only [Bool.false_eq_true, if_false]

theorem buildTargetF_force_ignores_builtin (fs : FS) (ts : List Target) (bforce : Bool)
    (n : Nat) (t : Target) (st : BuildState) :
    buildTargetF fs ts bforce (n + 1) true t st
      = buildTargetF fs ts bforce (n + 1) true { t with builtin := false } st := by
  simp only [buildTargetF, Bool.not_true, Bool.false_and]
  rw [buildDeps_name ts (buildTargetF fs ts bforce n false) t
    { t with builtin := false } rfl t.dependencies st]
  rw [buildTargetCMD_name_path fs bforce t { t with builtin := false } rfl rfl]

theorem isEmpty_iff_eq_nil (l : List String) : l.isEmpty = true ↔ l = [] := by
  cases l <;> simp [List.isEmpty]

/-! ### C4 — the vendored short-circuit and the single-target force -/

/-- C4: (a) a target flagged vendored whose expected output artifact
exists on disk is, absent the per-call force flag, treated as built with
the builder state completely untouched — neither the cache files nor the
dependencies are consulted; (b) under the per-call force flag (set
exactly by the single-named-target entry point) the vendored flag is
ignored, so the short-circuit is bypassed; (c) dependencies are built
with the force flag off, so a dependency already in the built set
succeeds with the state unchanged (memoization), and (d) a dependency
that reaches the command stage under a passing fingerprint check
likewise executes nothing; (e) the named-target entry point itself runs
its target with the force flag set, hence with the vendored flag
irrelevant. -/
theorem vendored_shortcircuit_and_single_target_force
    (fs : FS) (ts : List Target) (bforce : Bool) (n : Nat) (t tg tg2 : Target)
    (st : BuildState)
    (hb : t.builtin = true) (hex : fs.pathExists (bscfGetOutput t) = true)
    (hfm : firstMatch ts t.name = some t)
    (hmem : nameMem st.built tg.name = true)
    (hshort2 : (tg2.builtin && fs.pathExists (bscfGetOutput tg2)) = false)
    (hbuilt2 : nameMem st.built tg2.name = false)
    (hfail2 : nameMem st.failed tg2.name = false)
    (hdeps2 : tg2.dependencies = []) (hskip2 : skipCheck fs bforce tg2 = true) :
    buildTargetF fs ts bforce (n + 1) false t st = (true, st) ∧
    buildTargetF fs ts bforce (n + 1) true t st
      = buildTargetF fs ts bforce (n + 1) true { t with builtin := false } st ∧
    buildTargetF fs ts bforce (n + 1) false tg st = (true, st) ∧
    buildTargetF fs ts bforce (n + 1) false tg2 st = (true, st) ∧
    buildByName fs ts bforce (n + 1) t.name st
      = ((!nameMem (buildTargetF fs ts bforce (n + 1) true { t with builtin := false } st).2.failed
            t.name),
         (buildTargetF fs ts bforce (n + 1) true { t with builtin := false } st).2) := by
  refine ⟨buildTargetF_builtin_short fs ts bforce n t st hb hex,
    buildTargetF_force_ignores_builtin fs ts bforce n t st,
    buildTargetF_built_memo fs ts bforce false n tg st hmem,
    buildTargetF_skip_no_exec fs ts bforce n tg2 st hshort2 hbuilt2 hfail2 hdeps2 hskip2,
    ?_⟩
  unfold buildByName
  rw [hfm]
  dsimp only
  rw [buildTargetF_force_ignores_builtin fs ts bforce n t st]

/-- A vendored executable target whose artifact exists on `fsVen`. -/
def tVen : Target :=
  { type := TargetType.EXEC, name := "ven", path := "/v", sources := [],
    dependencies := [], prebuildcmds := [], postbuildcmds := [], defines := [],
    libs := [], includes := [], builtin := true }

/-- A dependency target that is already in the built set in the C4
witness scenario. -/
def tDepBuilt : Target :=
  { type := TargetType.EXEC, name := "db", path := "/v", sources := [],
    dependencies := [], prebuildcmds := [], postbuildcmds := [], defines := [],
    libs := [], includes := [], builtin := false }

/-- A dependency target whose two manifests agree on `fsVen`. -/
def tSkipDep : Target :=
  { type := TargetType.EXEC, name := "sk", path := "/s", sources := [],
    dependencies := [], prebuildcmds := [], postbuildcmds := [], defines := [],
    libs := [], includes := [], builtin := false }

/-- File system for the C4 witness: `tVen`'s output artifact exists and
`tSkipDep`'s manifests agree. -/
def fsVen : FS :=
  { fileLines := fun p =>
      if p = sourcesPath tSkipDep then some ["m"]
      else if p = prevSourcesPath tSkipDep then some ["m"]
      else none,
    pathExists := fun p => p = bscfGetOutput tVen,
    run := fun _ => true }

/-- C4 witness: on `fsVen`, the vendored target `tVen` short-circuits,
the memoized dependency `tDepBuilt` and the fingerprint-skipped
dependency `tSkipDep` both succeed with the state unchanged, and the
named-target entry point for `ven` goes through the force path. -/
theorem vendored_shortcircuit_witness :
    buildTargetF fsVen [tVen, tDepBuilt, tSkipDep] false 1 false tVen ⟨["db"], [], []⟩
      = (true, ⟨["db"], [], []⟩) ∧
    buildTargetF fsVen [tVen, tDepBuilt, tSkipDep] false 1 false tDepBuilt ⟨["db"], [], []⟩
      = (true, ⟨["db"], [], []⟩) ∧
    buildTargetF fsVen [tVen, tDepBuilt, tSkipDep] false 1 false tSkipDep ⟨["db"], [], []⟩
      = (true, ⟨["db"], [], []⟩) := by
  have h := vendored_shortcircuit_and_single_target_force fsVen [tVen, tDepBuilt, tSkipDep]
    false 0 tVen tDepBuilt tSkipDep ⟨["db"], [], []⟩ rfl (by decide) (by decide) (by decide)
    (by decide) (by decide) (by decide) rfl (by decide)
  exact ⟨h.1, h.2.2.1, h.2.2.2.1⟩

/-! ### C10 — failure propagation and the top-level build -/

/-- C10: (a) a target already in the failed set (and not short-circuited
by the earlier vendored/built checks) fails immediately with the state
untouched; (b) if the first matching target of a dependency fails to
build, both that dependency and the target are pushed onto the failed
set and the target's own commands are never executed — the resulting
state is exactly the dependency phase's state with the two names
appended to `failed`, its trace unchanged; (c) the top-level build steps
through every target of the graph in order, feeding each the previous
state regardless of failures, so independent branches still get a
chance; (d) the top-level build reports success iff the failed set ended
empty. -/
theorem dependency_failure_and_overall_success :
    (∀ (fs : FS) (ts : List Target) (bforce force : Bool) (n : Nat) (t : Target)
        (st : BuildState),
      (!force && t.builtin && fs.pathExists (bscfGetOutput t)) = false →
      nameMem st.built t.name = false → nameMem st.failed t.name = true →
      buildTargetF fs ts bforce (n + 1) force t st = (false, st)) ∧
    (∀ (fs : FS) (ts : List Target) (bforce force : Bool) (n : Nat) (t tg : Target)
        (st st1 : BuildState) (d : String) (rest : List String),
      t.dependencies = d :: rest → firstMatch ts d = some tg →
      buildTargetF fs ts bforce n false tg st = (false, st1) →
      (!force && t.builtin && fs.pathExists (bscfGetOutput t)) = false →
      nameMem st.built t.name = false → nameMem st.failed t.name = false →
      buildTargetF fs ts bforce (n + 1) force t st
        = (false, { st1 with failed := st1.failed ++ [tg.name, t.name] })) ∧
    (∀ (fs : FS) (ts : List Target) (bforce : Bool) (fuel : Nat) (t : Target)
        (rest : List Target) (st : BuildState),
      buildAllState fs ts bforce fuel (t :: rest) st
        = buildAllState fs ts bforce fuel rest (buildTargetF fs ts bforce fuel false t st).2) ∧
    (∀ (fs : FS) (ts : List Target) (bforce : Bool) (fuel : Nat),
      (buildAll fs ts bforce fuel).1 = true ↔ (buildAll fs ts bforce fuel).2.failed = []) := by
  refine ⟨?_, ?_, ?_, ?_⟩
  · intro fs ts bforce force n t st hshort hbuilt hfail
    exact buildTargetF_failed_memo fs ts bforce force n t st hshort hbuilt hfail
  · intro fs ts bforce force n t tg st st1 d rest hdeps hfm hrec hshort hbuilt hfail
    simp [buildTargetF, hshort, hbuilt, hfail, hdeps, buildDeps, hfm, hrec]
  · intro fs ts bforce fuel t rest st
    rfl
  · intro fs ts bforce fuel
    unfold buildAll
    exact isEmpty_iff_eq_nil _

/-- A dependency target whose single cached command fails on `fsFail`. -/
def tgD : Target :=
  { type := TargetType.EXEC, name := "d", path := "/w", sources := [],
    dependencies := [], prebuildcmds := [], postbuildcmds := [], defines := [],
    libs := [], includes := [], builtin := false }

/-- A target depending on the failing `tgD`. -/
def tTop : Target :=
  { type := TargetType.EXEC, name := "top", path := "/w", sources := [],
    dependencies := ["d"], prebuildcmds := [], postbuildcmds := [], defines := [],
    libs := [], includes := [], builtin := false }

/-- File system for the C10 witness: `tgD`'s cached command list is one
command and every command fails; no manifests exist. -/
def fsFail : FS :=
  { fileLines := fun p => if p = targetCachePath tgD then some ["boom"] else none,
    pathExists := fun _ => false,
    run := fun _ => false }

/-- C10 witness: `tgD` fails (its single command runs and fails), `tTop`
then fails through its dependency without running anything further, a
target already in `failed` fails with the state untouched, and the
full build over `[tgD, tTop]` reports failure with the final failed set
nonempty. -/
theorem dependency_failure_witness :
    buildTargetF fsFail [tgD, tTop] false 1 false tgD ⟨[], [], []⟩
      = (false, ⟨[], ["d"], ["boom"]⟩) ∧
    buildTargetF fsFail [tgD, tTop] false 2 false tTop ⟨[], [], []⟩
      = (false, ⟨[], ["d", "d", "top"], ["boom"]⟩) ∧
    buildTargetF fsFail [tgD, tTop] false 1 false tTop ⟨[], ["top"], []⟩
      = (false, ⟨[], ["top"], []⟩) ∧
    ((buildAll fsFail [tgD, tTop] false 3).1 = true
      ↔ (buildAll fsFail [tgD, tTop] false 3).2.failed = []) ∧
    (buildAll fsFail [tgD, tTop] false 3).2.failed = ["d", "d", "top"] := by
  refine ⟨by decide, ?_, ?_, ?_, by decide⟩
  · exact dependency_failure_and_overall_success.2.1 fsFail [tgD, tTop] false false 1
      tTop tgD ⟨[], [], []⟩ ⟨[], ["d"], ["boom"]⟩ ("d") [] rfl (by decide) (by decide)
      (by decide) (by decide) (by decide)
  · exact dependency_failure_and_overall_success.1 fsFail [tgD, tTop] false false 0
      tTop ⟨[], ["top"], []⟩ (by decide) (by decide) (by decide)
  · exact dependency_failure_and_overall_success.2.2.2 fsFail [tgD, tTop] false 3

end BSCF
